import Mathlib

/-!
Verification development for `src/tools/deps/visualize_deps.py`.

The script is embedded shallowly as pure Lean functions over an explicit
filesystem model.  A path is modelled structurally as a directory part plus a
base name (which is what `os.path.basename` and `glob` of `dir/*_history.csv`
decompose a path into); file contents are CSV tables (header plus raw string
rows).  Side effects of a run (printed messages, opening and closing the
matplotlib figure, the `plt.plot` calls and the `plt.savefig` write) are
recorded as an event trace, and an unhandled Python exception is an
`Option PlotErr` value that aborts the rest of the straight-line code, exactly
as an exception would.  Whether `plt.savefig` itself succeeds depends on the
environment, not on the inputs, so it is an explicit boolean oracle.
-/

namespace VisualizeDeps

/-- A CSV table as `pandas.read_csv` produces it: a header naming the columns
and the data rows as raw strings.  `df.empty` holds iff there are no data
rows. -/
structure CsvFile where
  header : List String
  rows : List (List String)
deriving DecidableEq, Repr

/-- A file path, split into its directory part and its base name.  This is the
decomposition `os.path.basename` performs and the one `glob.glob` of
`dependency_logs/*_history.csv` produces; images saved by bare file name land
in the current working directory, modelled as directory part `""`. -/
structure FPath where
  dir : String
  name : String
deriving DecidableEq, Repr

/-- Render a path for diagnostic messages, as the f-strings in the script
interpolate `log_file`. -/
def FPath.toStr (p : FPath) : String := p.dir ++ "/" ++ p.name

/-- `True` iff `suf` is a suffix of `s`: the matching discipline of
`glob.glob("dependency_logs/*_history.csv")` on the base name. -/
def hasSuffix (s suf : String) : Bool :=
  decide (suf.data.length ≤ s.data.length) &&
  decide (s.data.drop (s.data.length - suf.data.length) = suf.data)

/-- One step of Python's `str.replace(pat, '')`: scan left to right, and at
each position delete a non-overlapping occurrence of `pat` or keep the
character.  Fuel is the length of the list, which bounds the number of steps
and keeps the recursion structural. -/
def pyDeleteAux (pat : List Char) : Nat → List Char → List Char
  | _, [] => []
  | 0, l => l
  | fuel + 1, c :: rest =>
    if 0 < pat.length ∧ (c :: rest).take pat.length = pat then
      pyDeleteAux pat fuel ((c :: rest).drop pat.length)
    else
      c :: pyDeleteAux pat fuel rest

/-- Python's `s.replace(pat, '')`: every non-overlapping occurrence of `pat`
deleted, scanning left to right.  This is the call
`os.path.basename(log_file).replace('_history.csv', '')` in the script. -/
def pyDelete (s pat : String) : String :=
  ⟨pyDeleteAux pat.data s.data.length s.data⟩

/-- Digit test on a character, as for date parsing. -/
def isDig (c : Char) : Bool :=
  decide (48 ≤ c.toNat) && decide (c.toNat ≤ 57)

/-- Numeric value of a digit character. -/
def digVal (c : Char) : Nat := c.toNat - 48

/-- Modelled from the spec: `pd.to_datetime` (pandas, an external library, not
part of this repository) converts the `Date` column to a calendar-date type
and raises on an unparsable value.  Modelled for ISO `YYYY-MM-DD` strings,
mapped injectively to a `Nat` ordinal; anything else fails to parse. -/
def parseDate (s : String) : Option Nat :=
  match s.data with
  | [y1, y2, y3, y4, '-', m1, m2, '-', d1, d2] =>
    if isDig y1 && isDig y2 && isDig y3 && isDig y4 &&
       isDig m1 && isDig m2 && isDig d1 && isDig d2 then
      some ((((digVal y1 * 10 + digVal y2) * 10 + digVal y3) * 10 + digVal y4) * 10000 +
            (digVal m1 * 10 + digVal m2) * 100 + (digVal d1 * 10 + digVal d2))
    else
      none
  | _ => none

/-- Elementwise date conversion of a whole column, failing if any value fails,
as `pd.to_datetime(df['Date'])` does. -/
def parseDates : List String → Option (List Nat)
  | [] => some []
  | s :: rest =>
    match parseDate s, parseDates rest with
    | some d, some ds => some (d :: ds)
    | _, _ => none

/-- Index of a column name in the header, leftmost first, as pandas column
lookup `df[name]` resolves it (raising `KeyError` when absent). -/
def colIdx : List String → String → Option Nat
  | [], _ => none
  | h :: rest, name =>
    if h = name then some 0 else (colIdx rest name).map (· + 1)

/-- `df[name]`: the values of the named column in row order, or `none` when
the column is missing from the header (pandas `KeyError`).  A short row
contributes `""` for a missing cell. -/
def CsvFile.getCol (df : CsvFile) (name : String) : Option (List String) :=
  match colIdx df.header name with
  | none => none
  | some i => some (df.rows.map (fun r => r.getD i ""))

/-- Look up a path in the filesystem's file list; `none` models
`os.path.exists(log_file) == False` and a failing `open`. -/
def lookupFile : List (FPath × CsvFile) → FPath → Option CsvFile
  | [], _ => none
  | (q, df) :: rest, p => if q = p then some df else lookupFile rest p

/-- Observable effects of the script, in program order: a line printed to
stdout, `plt.figure` opening a figure, a `plt.plot` call with its label and
its x- and y-series, `plt.savefig` writing an image file into the current
working directory, and `plt.close` releasing the figure. -/
inductive Ev where
  | msg : String → Ev
  | figOpen : Ev
  | plot : String → List Nat → List String → Ev
  | saveWrite : String → Ev
  | figClose : Ev
deriving DecidableEq, Repr

/-- An unhandled Python exception escaping `plot_crate_history`: a pandas
`KeyError` for a missing column, a `pd.to_datetime` parse failure, or an I/O
error from `plt.savefig`. -/
inductive PlotErr where
  | missingColumn : String → PlotErr
  | badDate : String → PlotErr
  | saveFailed : String → PlotErr
deriving DecidableEq, Repr

/-- The image files written during a trace, in order. -/
def outputsOf (tr : List Ev) : List String :=
  tr.filterMap (fun e => match e with | Ev.saveWrite f => some f | _ => none)

/-- Number of occurrences of an event in a trace. -/
def countEv (e : Ev) : List Ev → Nat
  | [] => 0
  | x :: rest => (if x = e then 1 else 0) + countEv e rest

/-- Embedding of `plot_crate_history(log_file)`.  `files` is the filesystem,
`saveOk` tells whether the `plt.savefig` call succeeds.  The result is the
trace of effects that happened, paired with the exception that escaped, if
any; the straight-line order of the Python body is kept exactly:
existence check, `read_csv`, emptiness check, crate name via
`replace('_history.csv', '')`, `to_datetime` on the `Date` column,
`plt.figure`, the two `plt.plot` calls (each resolving its column), the
decorations, `plt.savefig`, the `Generated` message, `plt.close`. -/
def plot_crate_history (files : List (FPath × CsvFile)) (saveOk : Bool)
    (log_file : FPath) : List Ev × Option PlotErr :=
  match lookupFile files log_file with
  | none => ([Ev.msg ("No history file found: " ++ log_file.toStr)], none)
  | some df =>
    if df.rows = [] then
      ([Ev.msg ("No data in " ++ log_file.toStr)], none)
    else
      let crate_name := pyDelete log_file.name "_history.csv"
      match df.getCol "Date" with
      | none => ([], some (PlotErr.missingColumn "Date"))
      | some dateStrs =>
        match parseDates dateStrs with
        | none => ([], some (PlotErr.badDate log_file.toStr))
        | some dates =>
          match df.getCol "Direct Dependencies" with
          | none => ([Ev.figOpen], some (PlotErr.missingColumn "Direct Dependencies"))
          | some direct =>
            match df.getCol "Indirect Dependencies" with
            | none =>
              ([Ev.figOpen, Ev.plot "Direct" dates direct],
               some (PlotErr.missingColumn "Indirect Dependencies"))
            | some indirect =>
              let output_file := "dependency_trend_" ++ crate_name ++ ".png"
              if saveOk then
                ([Ev.figOpen, Ev.plot "Direct" dates direct,
                  Ev.plot "Indirect" dates indirect, Ev.saveWrite output_file,
                  Ev.msg ("Generated " ++ output_file), Ev.figClose], none)
              else
                ([Ev.figOpen, Ev.plot "Direct" dates direct,
                  Ev.plot "Indirect" dates indirect],
                 some (PlotErr.saveFailed output_file))

/-- The filesystem a run sees: the directories that exist, and the files with
their contents. -/
structure FS where
  dirs : List String
  files : List (FPath × CsvFile)

/-- `glob.glob("dependency_logs/*_history.csv")`: the paths of files that sit
directly in `dependency_logs` and whose base name ends in `_history.csv`, in
filesystem order (`glob` promises no particular order). -/
def globHistory (files : List (FPath × CsvFile)) : List FPath :=
  (files.map Prod.fst).filter
    (fun p => p.dir == "dependency_logs" && hasSuffix p.name "_history.csv")

/-- The `for log_file in log_files:` loop of `main`.  There is no `try` around
the body, so the first exception escaping `plot_crate_history` aborts the loop
with the effects accumulated so far. -/
def runFiles (files : List (FPath × CsvFile)) (saveOk : FPath → Bool) :
    List FPath → List Ev × Option PlotErr
  | [] => ([], none)
  | p :: rest =>
    match plot_crate_history files (saveOk p) p with
    | (tr, some e) => (tr, some e)
    | (tr, none) =>
      let r := runFiles files saveOk rest
      (tr ++ r.1, r.2)

/-- Embedding of `main()`: the directory existence check, the glob, the
empty-glob check, then the per-file loop. -/
def main (fs : FS) (saveOk : FPath → Bool) : List Ev × Option PlotErr :=
  if fs.dirs.contains "dependency_logs" = false then
    ([Ev.msg "No dependency logs found. Run track_deps.sh first."], none)
  else
    let log_files := globHistory fs.files
    if log_files = [] then
      ([Ev.msg "No history files found in dependency_logs/"], none)
    else
      runFiles fs.files saveOk log_files

/-- The naming rule exactly as the spec words it (for comparison with the
code's `replace`-based rule): the suffix `_history.csv` stripped, removed only
from the end of the base name. -/
def specEntityName (name : String) : String :=
  if hasSuffix name "_history.csv" then
    ⟨name.data.take (name.data.length - "_history.csv".data.length)⟩
  else
    name

/-- The standard header of a well-formed history CSV. -/
def reqHeader : List String := ["Date", "Direct Dependencies", "Indirect Dependencies"]

/-- Example file contents: one valid data row. -/
def dfFoo : CsvFile := ⟨reqHeader, [["2024-01-01", "2", "5"]]⟩

/-- Example path `dependency_logs/foo_history.csv`. -/
def pFoo : FPath := ⟨"dependency_logs", "foo_history.csv"⟩

/-- Example filesystem with the single valid file `pFoo`. -/
def fsFoo : FS := ⟨["dependency_logs"], [(pFoo, dfFoo)]⟩

end VisualizeDeps

namespace VisualizeDeps

/-- Example path `dependency_logs/a_history.csv_history.csv`: the base name
ends in `_history.csv` (so `glob` matches it) but also contains an inner
occurrence of `_history.csv`. -/
def pAA : FPath := ⟨"dependency_logs", "a_history.csv_history.csv"⟩

/-- Example filesystem holding one valid file at path `pAA`. -/
def fsAA : FS := ⟨["dependency_logs"], [(pAA, dfFoo)]⟩

/-- Example file whose header lacks the required `Date` column. -/
def dfNoDate : CsvFile :=
  ⟨["Day", "Direct Dependencies", "Indirect Dependencies"], [["2024-01-01", "2", "5"]]⟩

/-- Example path `dependency_logs/bar_history.csv`. -/
def pBar : FPath := ⟨"dependency_logs", "bar_history.csv"⟩

end VisualizeDeps

namespace VisualizeDeps

/-- C1, counterexample: with a valid one-row history file, when `plt.savefig`
fails the exception escapes before `plt.close()` runs, so the figure that was
opened is never closed — the claim that the figure is released whether or not
saving succeeds is false of the code. -/
theorem c1_save_failure_leaks_figure :
    (plot_crate_history fsFoo.files false pFoo).2 =
      some (PlotErr.saveFailed "dependency_trend_foo.png") ∧
    Ev.figOpen ∈ (plot_crate_history fsFoo.files false pFoo).1 ∧
    Ev.figClose ∉ (plot_crate_history fsFoo.files false pFoo).1 := by
  decide

/-- C1 (amended): when `plot_crate_history` returns without an exception every
figure it opened has been closed, but when `plt.savefig` fails the figure was
opened and is never closed — the release happens only after a successful
save. -/
theorem c1_figure_closed_iff_save_succeeds (files : List (FPath × CsvFile))
    (saveOk : Bool) (p : FPath) :
    ((plot_crate_history files saveOk p).2 = none →
      countEv Ev.figClose (plot_crate_history files saveOk p).1 =
        countEv Ev.figOpen (plot_crate_history files saveOk p).1) ∧
    (∀ out, (plot_crate_history files saveOk p).2 = some (PlotErr.saveFailed out) →
      Ev.figOpen ∈ (plot_crate_history files saveOk p).1 ∧
      Ev.figClose ∉ (plot_crate_history files saveOk p).1) := by
  unfold plot_crate_history
  repeat' split
  all_goals simp_all [countEv]

/-- C1, witness for the amended theorem at concrete inputs: a successful run
balances its figure, a failed save leaves the figure open. -/
theorem c1_witness :
    countEv Ev.figClose (plot_crate_history fsFoo.files true pFoo).1 =
      countEv Ev.figOpen (plot_crate_history fsFoo.files true pFoo).1 ∧
    (Ev.figOpen ∈ (plot_crate_history fsFoo.files false pFoo).1 ∧
      Ev.figClose ∉ (plot_crate_history fsFoo.files false pFoo).1) :=
  ⟨(c1_figure_closed_iff_save_succeeds fsFoo.files true pFoo).1 (by decide),
   (c1_figure_closed_iff_save_succeeds fsFoo.files false pFoo).2
     "dependency_trend_foo.png" (by decide)⟩

/-- C2, counterexample: for the input base name `a_history.csv_history.csv`
the code writes `dependency_trend_a.png` (Python `replace` deletes every
occurrence of `_history.csv`), not the `dependency_trend_a_history.csv.png`
that stripping the suffix only from the end would give. -/
theorem c2_replace_removes_inner_occurrences :
    outputsOf (main fsAA (fun _ => true)).1 = ["dependency_trend_a.png"] ∧
    "dependency_trend_" ++ specEntityName "a_history.csv_history.csv" ++ ".png" =
      "dependency_trend_a_history.csv.png" ∧
    ("dependency_trend_a.png" : String) ≠ "dependency_trend_a_history.csv.png" := by
  decide

/-- C2 (amended): every image written while processing a file is named
`dependency_trend_<entity>.png`, where `<entity>` is the input's base name
with every occurrence of `_history.csv` removed (Python `str.replace`), not
only a trailing one. -/
theorem c2_output_name_is_replace_all (files : List (FPath × CsvFile))
    (saveOk : Bool) (p : FPath) :
    ∀ o ∈ outputsOf (plot_crate_history files saveOk p).1,
      o = "dependency_trend_" ++ pyDelete p.name "_history.csv" ++ ".png" := by
  unfold plot_crate_history
  repeat' split
  all_goals simp_all [outputsOf]

/-- C2, witness: the single image written for `foo_history.csv` is named by
the replace-all rule. -/
theorem c2_witness :
    "dependency_trend_foo.png" =
      "dependency_trend_" ++ pyDelete pFoo.name "_history.csv" ++ ".png" :=
  c2_output_name_is_replace_all fsFoo.files true pFoo
    "dependency_trend_foo.png" (by decide)

/-- C3: for a non-empty file whose schema is malformed (a required column
missing) or whose `Date` column has an unparsable value, `plot_crate_history`
lets the exception escape: the result carries an error, and no image was
written for that file. -/
theorem c3_malformed_file_aborts (files : List (FPath × CsvFile))
    (saveOk : Bool) (p : FPath) (df : CsvFile)
    (hlk : lookupFile files p = some df) (hne : df.rows ≠ [])
    (hbad : df.getCol "Date" = none ∨
      (∃ ds, df.getCol "Date" = some ds ∧ parseDates ds = none) ∨
      df.getCol "Direct Dependencies" = none ∨
      df.getCol "Indirect Dependencies" = none) :
    (plot_crate_history files saveOk p).2.isSome ∧
    outputsOf (plot_crate_history files saveOk p).1 = [] := by
  unfold plot_crate_history
  repeat' split
  all_goals simp_all [outputsOf]

/-- C3, witness: a file missing the `Date` column aborts with an error and no
output. -/
theorem c3_witness :
    (plot_crate_history [(pBar, dfNoDate)] true pBar).2.isSome ∧
    outputsOf (plot_crate_history [(pBar, dfNoDate)] true pBar).1 = [] :=
  c3_malformed_file_aborts [(pBar, dfNoDate)] true pBar dfNoDate (by decide)
    (by decide) (Or.inl (by decide))

end VisualizeDeps

namespace VisualizeDeps

/-- Example file with the required columns but an unparsable `Date` value. -/
def dfBadDate : CsvFile := ⟨reqHeader, [["notadate", "2", "5"]]⟩

/-- Example filesystem whose only file has an unparsable date. -/
def fsBadDate : FS := ⟨["dependency_logs"], [(pFoo, dfBadDate)]⟩

/-- Example file with the required header and zero data rows. -/
def dfEmpty : CsvFile := ⟨reqHeader, []⟩

/-- Example path `dependency_logs/emp_history.csv`. -/
def pEmp : FPath := ⟨"dependency_logs", "emp_history.csv"⟩

/-- C4, counterexample: `dependency_logs/foo_history.csv` has the three
required columns and one data row, yet its `Date` value `notadate` does not
parse, so the run aborts with an error and writes no image — not the claimed
one image and no error. -/
theorem c4_three_columns_not_enough :
    (main fsBadDate (fun _ => true)).2.isSome ∧
    outputsOf (main fsBadDate (fun _ => true)).1 = [] := by
  decide

/-- C4 (amended): every matching file with at least one data row, the three
required columns, and every `Date` value parsable is processed, when the image
write itself succeeds, into exactly one image named
`dependency_trend_<entity>.png` with no error, `<entity>` being the base name
with every occurrence of `_history.csv` removed. -/
theorem c4_valid_file_renders_one_image (files : List (FPath × CsvFile))
    (p : FPath) (df : CsvFile) (ds : List String) (dates : List Nat)
    (direct indirect : List String)
    (hdir : p.dir = "dependency_logs")
    (hsuf : hasSuffix p.name "_history.csv" = true)
    (hlk : lookupFile files p = some df) (hne : df.rows ≠ [])
    (hd : df.getCol "Date" = some ds) (hp : parseDates ds = some dates)
    (h1 : df.getCol "Direct Dependencies" = some direct)
    (h2 : df.getCol "Indirect Dependencies" = some indirect) :
    (plot_crate_history files true p).2 = none ∧
    outputsOf (plot_crate_history files true p).1 =
      ["dependency_trend_" ++ pyDelete p.name "_history.csv" ++ ".png"] := by
  unfold plot_crate_history
  repeat' split
  all_goals simp_all [outputsOf]

/-- C4, witness: the valid one-row file `foo_history.csv` yields exactly
`dependency_trend_foo.png` and no error. -/
theorem c4_witness :
    (plot_crate_history fsFoo.files true pFoo).2 = none ∧
    outputsOf (plot_crate_history fsFoo.files true pFoo).1 =
      ["dependency_trend_" ++ pyDelete pFoo.name "_history.csv" ++ ".png"] :=
  c4_valid_file_renders_one_image fsFoo.files pFoo dfFoo ["2024-01-01"]
    [20240101] ["2"] ["5"] (by decide) (by decide) (by decide) (by decide)
    (by decide) (by decide) (by decide) (by decide)

/-- C5: when the `dependency_logs` directory is missing, or it exists but no
file matches `*_history.csv`, `main` prints a single diagnostic line, writes
no image, and returns normally with no error. -/
theorem c5_no_inputs_prints_diagnostic (fs : FS) (saveOk : FPath → Bool)
    (h : fs.dirs.contains "dependency_logs" = false ∨ globHistory fs.files = []) :
    (main fs saveOk).2 = none ∧
    outputsOf (main fs saveOk).1 = [] ∧
    ∃ m, (main fs saveOk).1 = [Ev.msg m] := by
  unfold main
  rcases h with h | h
  · simp at h
    simp [h, outputsOf]
  · by_cases hd : "dependency_logs" ∈ fs.dirs <;> simp [hd, h, outputsOf]

/-- C5, witness: an empty filesystem (no `dependency_logs` directory) gives a
diagnostic, zero outputs and no error. -/
theorem c5_witness :
    (main ⟨[], []⟩ (fun _ => true)).2 = none ∧
    outputsOf (main ⟨[], []⟩ (fun _ => true)).1 = [] ∧
    ∃ m, (main ⟨[], []⟩ (fun _ => true)).1 = [Ev.msg m] :=
  c5_no_inputs_prints_diagnostic ⟨[], []⟩ (fun _ => true) (Or.inl (by decide))

/-- C6: a matching file with a header row and zero data rows is skipped with
just a `No data` message — no error, no image — and the loop goes on to
process the remaining files unchanged. -/
theorem c6_empty_file_skipped (files : List (FPath × CsvFile))
    (saveOk : FPath → Bool) (p : FPath) (df : CsvFile) (rest : List FPath)
    (hlk : lookupFile files p = some df) (he : df.rows = []) :
    plot_crate_history files (saveOk p) p =
      ([Ev.msg ("No data in " ++ p.toStr)], none) ∧
    runFiles files saveOk (p :: rest) =
      (Ev.msg ("No data in " ++ p.toStr) :: (runFiles files saveOk rest).1,
        (runFiles files saveOk rest).2) := by
  have h1 : plot_crate_history files (saveOk p) p =
      ([Ev.msg ("No data in " ++ p.toStr)], none) := by
    unfold plot_crate_history
    simp [hlk, he]
  refine ⟨h1, ?_⟩
  simp [runFiles, h1]

/-- C6, witness: a header-only file is skipped and the (empty) remainder of
the loop runs unaffected. -/
theorem c6_witness :
    plot_crate_history [(pEmp, dfEmpty)] ((fun _ => true) pEmp) pEmp =
      ([Ev.msg ("No data in " ++ pEmp.toStr)], none) ∧
    runFiles [(pEmp, dfEmpty)] (fun _ => true) [pEmp] =
      (Ev.msg ("No data in " ++ pEmp.toStr) ::
        (runFiles [(pEmp, dfEmpty)] (fun _ => true) []).1,
        (runFiles [(pEmp, dfEmpty)] (fun _ => true) []).2) :=
  c6_empty_file_skipped [(pEmp, dfEmpty)] (fun _ => true) pEmp dfEmpty []
    (by decide) (by decide)

end VisualizeDeps

namespace VisualizeDeps

/-- `parseDates` succeeds with a list of the same length as its input. -/
theorem parseDates_length (l : List String) (xs : List Nat)
    (h : parseDates l = some xs) : xs.length = l.length := by
  induction l generalizing xs with
  | nil => simp [parseDates] at h; subst h; rfl
  | cons s rest ih =>
    unfold parseDates at h
    rcases hd : parseDate s with _ | d <;> rw [hd] at h
    · simp at h
    · rcases hr : parseDates rest with _ | ds <;> rw [hr] at h
      · simp at h
      · simp at h
        subst h
        simp [ih ds hr]

/-- `parseDates` converts elementwise: the n-th converted date is the parse of
the n-th raw value, so conversion keeps the rows in their order. -/
theorem parseDates_idx (l : List String) (xs : List Nat)
    (h : parseDates l = some xs) :
    ∀ n : Nat, xs[n]? = (l[n]?).bind parseDate := by
  induction l generalizing xs with
  | nil => simp [parseDates] at h; subst h; simp
  | cons s rest ih =>
    intro n
    unfold parseDates at h
    rcases hd : parseDate s with _ | d <;> rw [hd] at h
    · simp at h
    · rcases hr : parseDates rest with _ | ds <;> rw [hr] at h
      · simp at h
      · simp at h
        subst h
        cases n with
        | zero => simp [hd]
        | succ n => simp [ih ds hr n]

/-- C7: the two plotted series are the `Direct Dependencies` and
`Indirect Dependencies` columns mapped over `df.rows` in the rows' own order,
and the x-values are the elementwise parses of the `Date` column in that same
order — nothing between loading and rendering re-sorts the records. -/
theorem c7_rows_plotted_in_file_order (files : List (FPath × CsvFile))
    (saveOk : Bool) (p : FPath) (df : CsvFile) (i j k : Nat) (dates : List Nat)
    (hlk : lookupFile files p = some df) (hne : ¬df.rows = [])
    (hi : colIdx df.header "Date" = some i)
    (hp : parseDates (df.rows.map (fun r => r.getD i "")) = some dates)
    (hj : colIdx df.header "Direct Dependencies" = some j)
    (hk : colIdx df.header "Indirect Dependencies" = some k) :
    Ev.plot "Direct" dates (df.rows.map (fun r => r.getD j "")) ∈
      (plot_crate_history files saveOk p).1 ∧
    Ev.plot "Indirect" dates (df.rows.map (fun r => r.getD k "")) ∈
      (plot_crate_history files saveOk p).1 ∧
    dates.length = df.rows.length ∧
    (∀ n : Nat, dates[n]? = ((df.rows.map (fun r => r.getD i ""))[n]?).bind parseDate) := by
  have hgd : df.getCol "Date" = some (df.rows.map (fun r => r.getD i "")) := by
    simp [CsvFile.getCol, hi]
  have hgj : df.getCol "Direct Dependencies" =
      some (df.rows.map (fun r => r.getD j "")) := by
    simp [CsvFile.getCol, hj]
  have hgk : df.getCol "Indirect Dependencies" =
      some (df.rows.map (fun r => r.getD k "")) := by
    simp [CsvFile.getCol, hk]
  have hlen : dates.length = df.rows.length := by
    have := parseDates_length _ _ hp
    simpa using this
  have hp2 : parseDates (List.map (fun r => r[i]?.getD "") df.rows) = some dates := by
    simpa using hp
  refine ⟨?_, ?_, hlen, parseDates_idx _ _ hp⟩ <;>
    (unfold plot_crate_history
     simp [hlk, hne, hgd, hgj, hgk, hp2]
     cases saveOk <;> simp)

/-- C7, witness: for the one-row example file the plotted series are exactly
the row's cells and the parsed date, in row order. -/
theorem c7_witness :
    Ev.plot "Direct" [20240101] (dfFoo.rows.map (fun r => r.getD 1 "")) ∈
      (plot_crate_history fsFoo.files true pFoo).1 ∧
    Ev.plot "Indirect" [20240101] (dfFoo.rows.map (fun r => r.getD 2 "")) ∈
      (plot_crate_history fsFoo.files true pFoo).1 ∧
    ([20240101] : List Nat).length = dfFoo.rows.length ∧
    (∀ n : Nat, ([20240101] : List Nat)[n]? =
      ((dfFoo.rows.map (fun r => r.getD 0 ""))[n]?).bind parseDate) :=
  c7_rows_plotted_in_file_order fsFoo.files true pFoo dfFoo 0 1 2 [20240101]
    (by decide) (by decide) (by decide) (by decide) (by decide) (by decide)

end VisualizeDeps

namespace VisualizeDeps

/-- Image extraction distributes over trace concatenation. -/
theorem outputsOf_append (t1 t2 : List Ev) :
    outputsOf (t1 ++ t2) = outputsOf t1 ++ outputsOf t2 := by
  simp [outputsOf]

/-- Helper: a single `plot_crate_history` call only ever writes the trend
image derived from its own input's base name. -/
theorem plot_writes_trend_only (files : List (FPath × CsvFile)) (saveOk : Bool)
    (p : FPath) :
    ∀ o ∈ outputsOf (plot_crate_history files saveOk p).1,
      o = "dependency_trend_" ++ pyDelete p.name "_history.csv" ++ ".png" := by
  unfold plot_crate_history
  repeat' split
  all_goals simp_all [outputsOf]

/-- Helper: every image the per-file loop writes is the trend image of one of
the files it was given. -/
theorem runFiles_writes_trend_only (files : List (FPath × CsvFile))
    (saveOk : FPath → Bool) (l : List FPath) :
    ∀ o ∈ outputsOf (runFiles files saveOk l).1, ∃ p ∈ l,
      o = "dependency_trend_" ++ pyDelete p.name "_history.csv" ++ ".png" := by
  induction l with
  | nil => simp [runFiles, outputsOf]
  | cons p rest ih =>
    intro o ho
    unfold runFiles at ho
    rcases hpc : plot_crate_history files (saveOk p) p with ⟨tr, err⟩
    rw [hpc] at ho
    have hshape : ∀ x ∈ outputsOf tr,
        x = "dependency_trend_" ++ pyDelete p.name "_history.csv" ++ ".png" := by
      intro x hx
      exact plot_writes_trend_only files (saveOk p) p x (by rw [hpc]; exact hx)
    cases err with
    | some e =>
      simp at ho
      exact ⟨p, by simp, hshape o ho⟩
    | none =>
      simp [outputsOf_append] at ho
      rcases ho with ho | ho
      · exact ⟨p, by simp, hshape o ho⟩
      · obtain ⟨q, hq, hqe⟩ := ih o ho
        exact ⟨q, by simp [hq], hqe⟩

/-- C8: the only files a run writes are trend images `dependency_trend_<e>.png`
in the current working directory; no write ever targets one of the input paths
discovered under `dependency_logs/` (the model reads input files but has no
operation that mutates or deletes them). -/
theorem c8_run_writes_only_trend_images (fs : FS) (saveOk : FPath → Bool) :
    ∀ o ∈ outputsOf (main fs saveOk).1,
      (∃ e, o = "dependency_trend_" ++ e ++ ".png") ∧
      ∀ p ∈ globHistory fs.files, (⟨"", o⟩ : FPath) ≠ p := by
  intro o ho
  have hshape : ∃ p ∈ globHistory fs.files,
      o = "dependency_trend_" ++ pyDelete p.name "_history.csv" ++ ".png" := by
    unfold main at ho
    by_cases h1 : "dependency_logs" ∈ fs.dirs
    · by_cases h2 : globHistory fs.files = []
      · simp [h1, h2, outputsOf] at ho
      · simp [h1, h2] at ho
        exact runFiles_writes_trend_only fs.files saveOk _ o ho
    · simp [h1, outputsOf] at ho
  obtain ⟨p0, _, hoeq⟩ := hshape
  refine ⟨⟨pyDelete p0.name "_history.csv", hoeq⟩, ?_⟩
  intro p hp heq
  have hmem := List.mem_filter.mp hp
  have hdir : p.dir = "dependency_logs" := by
    have h := hmem.2
    simp at h
    exact h.1
  rw [← heq] at hdir
  simp at hdir

/-- C8, witness: the run on the example filesystem writes only
`dependency_trend_foo.png`, which is a trend image and is none of the input
paths. -/
theorem c8_witness :
    (∃ e, "dependency_trend_foo.png" = "dependency_trend_" ++ e ++ ".png") ∧
    ∀ p ∈ globHistory fsFoo.files,
      (⟨"", "dependency_trend_foo.png"⟩ : FPath) ≠ p :=
  c8_run_writes_only_trend_images fsFoo (fun _ => true)
    "dependency_trend_foo.png" (by decide)

end VisualizeDeps

namespace VisualizeDeps

/-- Example path `dependency_logs/a_history.csv`. -/
def pA : FPath := ⟨"dependency_logs", "a_history.csv"⟩

/-- Example path `dependency_logs/b_history.csv`. -/
def pB : FPath := ⟨"dependency_logs", "b_history.csv"⟩

/-- Helper: full trace of a successful render of a non-empty file with the
three required columns, parsable dates, and a succeeding image write. -/
theorem plot_success_trace (files : List (FPath × CsvFile)) (p : FPath)
    (df : CsvFile) (ds : List String) (dates : List Nat)
    (direct indirect : List String)
    (hlk : lookupFile files p = some df) (hne : ¬df.rows = [])
    (hd : df.getCol "Date" = some ds) (hp : parseDates ds = some dates)
    (h1 : df.getCol "Direct Dependencies" = some direct)
    (h2 : df.getCol "Indirect Dependencies" = some indirect) :
    plot_crate_history files true p =
      ([Ev.figOpen, Ev.plot "Direct" dates direct,
        Ev.plot "Indirect" dates indirect,
        Ev.saveWrite ("dependency_trend_" ++ pyDelete p.name "_history.csv" ++ ".png"),
        Ev.msg ("Generated " ++
          ("dependency_trend_" ++ pyDelete p.name "_history.csv" ++ ".png")),
        Ev.figClose], none) := by
  unfold plot_crate_history
  simp [hlk, hne, hd, hp, h1, h2]

/-- C9: two valid one-row inputs `a_history.csv` and `b_history.csv` produce
exactly the two images `dependency_trend_a.png` and `dependency_trend_b.png`,
and processing the files in the opposite order produces the same set of
images. -/
theorem c9_two_files_any_order (d1 x1 y1 d2 x2 y2 : String) (t1 t2 : Nat)
    (h1 : parseDate d1 = some t1) (h2 : parseDate d2 = some t2) :
    outputsOf (main ⟨["dependency_logs"],
        [(pA, ⟨reqHeader, [[d1, x1, y1]]⟩), (pB, ⟨reqHeader, [[d2, x2, y2]]⟩)]⟩
        (fun _ => true)).1 =
      ["dependency_trend_a.png", "dependency_trend_b.png"] ∧
    outputsOf (main ⟨["dependency_logs"],
        [(pB, ⟨reqHeader, [[d2, x2, y2]]⟩), (pA, ⟨reqHeader, [[d1, x1, y1]]⟩)]⟩
        (fun _ => true)).1 =
      ["dependency_trend_b.png", "dependency_trend_a.png"] ∧
    (∀ o : String,
      o ∈ (["dependency_trend_a.png", "dependency_trend_b.png"] : List String) ↔
      o ∈ (["dependency_trend_b.png", "dependency_trend_a.png"] : List String)) := by
  have hna : pyDelete pA.name "_history.csv" = "a" := by decide
  have hnb : pyDelete pB.name "_history.csv" = "b" := by decide
  have hga : (⟨reqHeader, [[d1, x1, y1]]⟩ : CsvFile).getCol "Date" = some [d1] := by
    simp [CsvFile.getCol, colIdx, reqHeader]
  have hgad : (⟨reqHeader, [[d1, x1, y1]]⟩ : CsvFile).getCol "Direct Dependencies" =
      some [x1] := by
    simp [CsvFile.getCol, colIdx, reqHeader]
  have hgai : (⟨reqHeader, [[d1, x1, y1]]⟩ : CsvFile).getCol "Indirect Dependencies" =
      some [y1] := by
    simp [CsvFile.getCol, colIdx, reqHeader]
  have hgb : (⟨reqHeader, [[d2, x2, y2]]⟩ : CsvFile).getCol "Date" = some [d2] := by
    simp [CsvFile.getCol, colIdx, reqHeader]
  have hgbd : (⟨reqHeader, [[d2, x2, y2]]⟩ : CsvFile).getCol "Direct Dependencies" =
      some [x2] := by
    simp [CsvFile.getCol, colIdx, reqHeader]
  have hgbi : (⟨reqHeader, [[d2, x2, y2]]⟩ : CsvFile).getCol "Indirect Dependencies" =
      some [y2] := by
    simp [CsvFile.getCol, colIdx, reqHeader]
  have hpa : parseDates [d1] = some [t1] := by simp [parseDates, h1]
  have hpb : parseDates [d2] = some [t2] := by simp [parseDates, h2]
  refine ⟨?_, ?_, by intro o; constructor <;> (intro h; simp at h; rcases h with h | h <;> simp [h])⟩
  · have hlka : lookupFile
        [(pA, ⟨reqHeader, [[d1, x1, y1]]⟩), (pB, ⟨reqHeader, [[d2, x2, y2]]⟩)] pA =
        some ⟨reqHeader, [[d1, x1, y1]]⟩ := by
      simp [lookupFile]
    have hlkb : lookupFile
        [(pA, ⟨reqHeader, [[d1, x1, y1]]⟩), (pB, ⟨reqHeader, [[d2, x2, y2]]⟩)] pB =
        some ⟨reqHeader, [[d2, x2, y2]]⟩ := by
      simp [lookupFile, pA, pB]
    have hta := plot_success_trace _ pA _ [d1] [t1] [x1] [y1]
      hlka (by simp) hga hpa hgad hgai
    have htb := plot_success_trace _ pB _ [d2] [t2] [x2] [y2]
      hlkb (by simp) hgb hpb hgbd hgbi
    have hglob : globHistory
        [(pA, ⟨reqHeader, [[d1, x1, y1]]⟩), (pB, ⟨reqHeader, [[d2, x2, y2]]⟩)] =
        [pA, pB] := by
      simp [globHistory, pA, pB, hasSuffix]
      decide
    unfold main
    rw [hglob]
    simp [runFiles, hta, htb, outputsOf_append, outputsOf, hna, hnb]
  · have hlka : lookupFile
        [(pB, ⟨reqHeader, [[d2, x2, y2]]⟩), (pA, ⟨reqHeader, [[d1, x1, y1]]⟩)] pA =
        some ⟨reqHeader, [[d1, x1, y1]]⟩ := by
      simp [lookupFile, pA, pB]
    have hlkb : lookupFile
        [(pB, ⟨reqHeader, [[d2, x2, y2]]⟩), (pA, ⟨reqHeader, [[d1, x1, y1]]⟩)] pB =
        some ⟨reqHeader, [[d2, x2, y2]]⟩ := by
      simp [lookupFile, pA, pB]
    have hta := plot_success_trace _ pA _ [d1] [t1] [x1] [y1]
      hlka (by simp) hga hpa hgad hgai
    have htb := plot_success_trace _ pB _ [d2] [t2] [x2] [y2]
      hlkb (by simp) hgb hpb hgbd hgbi
    have hglob : globHistory
        [(pB, ⟨reqHeader, [[d2, x2, y2]]⟩), (pA, ⟨reqHeader, [[d1, x1, y1]]⟩)] =
        [pB, pA] := by
      simp [globHistory, pA, pB, hasSuffix]
      decide
    unfold main
    rw [hglob]
    simp [runFiles, hta, htb, outputsOf_append, outputsOf, hna, hnb]

/-- C9, witness: the scenario instantiated with concrete dates and counts. -/
theorem c9_witness :
    outputsOf (main ⟨["dependency_logs"],
        [(pA, ⟨reqHeader, [["2024-01-01", "2", "5"]]⟩),
         (pB, ⟨reqHeader, [["2024-01-08", "3", "7"]]⟩)]⟩
        (fun _ => true)).1 =
      ["dependency_trend_a.png", "dependency_trend_b.png"] ∧
    outputsOf (main ⟨["dependency_logs"],
        [(pB, ⟨reqHeader, [["2024-01-08", "3", "7"]]⟩),
         (pA, ⟨reqHeader, [["2024-01-01", "2", "5"]]⟩)]⟩
        (fun _ => true)).1 =
      ["dependency_trend_b.png", "dependency_trend_a.png"] ∧
    (∀ o : String,
      o ∈ (["dependency_trend_a.png", "dependency_trend_b.png"] : List String) ↔
      o ∈ (["dependency_trend_b.png", "dependency_trend_a.png"] : List String)) :=
  c9_two_files_any_order "2024-01-01" "2" "5" "2024-01-08" "3" "7"
    20240101 20240108 (by decide) (by decide)

/-- C10: there is no per-file failure isolation.  If the files before `p` all
render cleanly and `p`'s render raises, the loop stops at `p`: the run's
result is the traces of the earlier files followed by `p`'s partial trace and
`p`'s error, independent of the files after `p` — none of them is processed,
so no image is produced for any of them. -/
theorem c10_failure_aborts_rest (files : List (FPath × CsvFile))
    (saveOk : FPath → Bool) (l1 l2 : List FPath) (p : FPath)
    (tr : List Ev) (e : PlotErr)
    (hok : ∀ q ∈ l1, (plot_crate_history files (saveOk q) q).2 = none)
    (hf : plot_crate_history files (saveOk p) p = (tr, some e)) :
    runFiles files saveOk (l1 ++ p :: l2) =
      ((l1.map (fun q => (plot_crate_history files (saveOk q) q).1)).flatten ++ tr,
        some e) := by
  induction l1 with
  | nil => simp [runFiles, hf]
  | cons q rest ih =>
    have hq : (plot_crate_history files (saveOk q) q).2 = none := hok q (by simp)
    rcases hpc : plot_crate_history files (saveOk q) q with ⟨trq, err⟩
    rw [hpc] at hq
    simp at hq
    subst hq
    have ih2 := ih (fun r hr => hok r (by simp [hr]))
    simp [runFiles, hpc, ih2]

/-- C10, witness: a good file, then a file missing its `Date` column, then
another good file: the loop ends at the bad file with its error, and the
trailing good file contributes nothing. -/
theorem c10_witness :
    runFiles [(pFoo, dfFoo), (pBar, dfNoDate)] (fun _ => true)
        ([pFoo] ++ pBar :: [pFoo]) =
      (([pFoo].map (fun q =>
          (plot_crate_history [(pFoo, dfFoo), (pBar, dfNoDate)]
            ((fun _ => true) q) q).1)).flatten ++ [],
        some (PlotErr.missingColumn "Date")) :=
  c10_failure_aborts_rest [(pFoo, dfFoo), (pBar, dfNoDate)] (fun _ => true)
    [pFoo] [pFoo] pBar [] (PlotErr.missingColumn "Date")
    (by decide) (by decide)

end VisualizeDeps
